import Mathlib

/-!
Verification development for the StreamStudio RTSP overlay application.

The repository ships a React frontend (`frontend/src/App.js`, an `Overlay`
component) and documents a Flask backend (`backend/app.py`) that implements
the acquisition/streaming pipeline; the backend file itself is not part of
the sources available here, so the pipeline components (shared frame slot,
multipart streamer, source controller, frame compositor, probe and settings
endpoints) are modelled from the specification, as marked on each
definition.  The frontend operations (`testConnection`, `updateVideoSource`,
`fetchCurrentSettings`) are embedded directly from `App.js`.
-/

namespace RtspOverlay

/-! ## Data model -/

/-- A video origin: a local capture device index or a remote stream URI
(spec §3, Source Descriptor). -/
inductive Descriptor where
  | LocalDevice (identifier : String)
  | RemoteStream (identifier : String)
deriving DecidableEq, Repr

def Descriptor.identifier : Descriptor → String
  | .LocalDevice i => i
  | .RemoteStream i => i

/-- A raw decoded image: a grid of pixel values, row major (spec §3, Frame).
Width and height are derived from the grid. -/
structure Frame where
  pixels : List (List Nat)
deriving DecidableEq, Repr

def Frame.height (f : Frame) : Nat := f.pixels.length

def Frame.width (f : Frame) : Nat := (f.pixels.headD []).length

/-- Pixel lookup with a zero default outside the stored grid. -/
def Frame.pixAt (f : Frame) (x y : Nat) : Nat := (f.pixels.getD y []).getD x 0

/-- Overlay payload: text content or an image resource URL
(spec §3, Overlay Record `kind`/`content`). -/
inductive OverlayKind where
  | text (content : String)
  | image (url : String)
deriving DecidableEq, Repr

/-- An overlay record in stream-pixel coordinates (spec §3).  Coordinates are
integers: negative or out-of-bounds positions are legal inputs and are
clamped by the compositor, not rejected. -/
structure Overlay where
  kind : OverlayKind
  x : Int
  y : Int
  width : Int
  height : Int
deriving DecidableEq, Repr

/-- A half-open pixel rectangle `[x0, x1) × [y0, y1)` in frame coordinates. -/
structure Rect where
  x0 : Nat
  x1 : Nat
  y0 : Nat
  y1 : Nat
deriving DecidableEq, Repr

def Rect.mem (r : Rect) (x y : Nat) : Bool :=
  decide (r.x0 ≤ x) && decide (x < r.x1) && decide (r.y0 ≤ y) && decide (y < r.y1)

/-! ## Frame Compositor (spec §4.3)

Modelled from the spec: the backend `app.py` is not among the available
sources, so `compose` below follows §4.3 word for word: overlays are drawn
in snapshot order onto a private copy of the frame, each rectangle is
clamped to the frame bounds, text is rasterized inside its rectangle, image
overlays are fetched and stretched to fill their rectangle, and a fetch or
decode failure skips exactly that overlay. -/

/-- Modelled from the spec: clamp an overlay rectangle to the frame bounds
(§4.3 "negative or out-of-bounds coordinates are clamped, not rejected"). -/
def clampRect (f : Frame) (o : Overlay) : Rect :=
  { x0 := o.x.toNat
    x1 := (min (f.width : Int) (o.x + o.width)).toNat
    y0 := o.y.toNat
    y1 := (min (f.height : Int) (o.y + o.height)).toNat }

/-- The external rendering collaborators: `fetch` resolves an image URL to a
decoded image (`none` is an OverlayRenderError: unreachable or undecodable
resource), `raster` rasterizes a text string at a rectangle-relative pixel. -/
structure RenderEnv where
  fetch : String → Option Frame
  raster : String → Nat → Nat → Nat

/-- Paint every pixel of `f` that lies inside `r` with `color`, leaving all
other pixels unchanged. -/
def paint (f : Frame) (r : Rect) (color : Nat → Nat → Nat) : Frame :=
  ⟨(List.range f.height).map fun y =>
    (List.range f.width).map fun x =>
      if r.mem x y then color x y else f.pixAt x y⟩

/-- Modelled from the spec: sample an image stretched to exactly fill the
overlay rectangle — each axis is scaled independently by the rectangle's own
extent, so the aspect ratio is not preserved (§4.3). -/
def stretchSample (img : Frame) (o : Overlay) (px py : Nat) : Nat :=
  img.pixAt ((((px : Int) - o.x) * (img.width : Int) / o.width).toNat)
            ((((py : Int) - o.y) * (img.height : Int) / o.height).toNat)

/-- Modelled from the spec: draw one overlay onto a frame (§4.3).  A failed
image fetch/decode returns the frame unchanged — the overlay is skipped. -/
def drawOverlay (env : RenderEnv) (f : Frame) (o : Overlay) : Frame :=
  match o.kind with
  | .text s =>
      paint f (clampRect f o) fun px py =>
        env.raster s (((px : Int) - o.x).toNat) (((py : Int) - o.y).toNat)
  | .image url =>
      match env.fetch url with
      | none => f
      | some img => paint f (clampRect f o) (stretchSample img o)

/-- Modelled from the spec: `compose(frame, overlaySnapshot)` folds
`drawOverlay` over the snapshot in insertion order (§4.3). -/
def compose (env : RenderEnv) (f : Frame) (os : List Overlay) : Frame :=
  os.foldl (drawOverlay env) f

/-! ## Shared Frame Slot and Multipart Streamer (spec §3, §4.4, §5)

Modelled from the spec: the slot holds at most one complete frame plus a
monotonically increasing sequence number; publication is atomic, so a
reader's observation is always one of the completely published slot states
(§3 "readers never observe a partially written Frame").  A viewer's loop
reads the slot on each tick and skips the send when the sequence number is
unchanged since its last send (§4.4). -/

/-- One completely published slot state: a frame with its sequence number. -/
structure SlotFrame where
  seq : Nat
  frame : Frame
deriving DecidableEq, Repr

/-- Modelled from the spec: the per-viewer send loop of the Multipart
Streamer (§4.4).  `last` is the sequence number of the last frame sent to
this viewer (the Stream Session state, §3); `obs` is the time-ordered list
of slot states the viewer's ticks observe.  A tick sends the observed frame
unless its sequence number equals the last one sent. -/
def viewerSends : Option Nat → List SlotFrame → List SlotFrame
  | _, [] => []
  | last, s :: rest =>
    if last = some s.seq then viewerSends last rest
    else s :: viewerSends (some s.seq) rest

/-! ## Source Controller (spec §4.1)

Modelled from the spec: `switchSource` transitions Source State to
`Connecting`, then polls for the first successful frame for a bounded
startup window; the first arriving frame yields `Streaming(descriptor)`,
and exhausting the window yields `FallenBack` to the default local device
(§4.1).  The window is a tick budget and the new acquirer's behaviour is an
arrival schedule: `arrivals` lists, tick by tick, whether a frame arrived
(`[]` continues with no arrivals — a source that never produces). -/

/-- Source State (spec §3).  `Connecting` carries the pending descriptor and
the remaining startup-window budget in ticks. -/
inductive SourceState where
  | Disconnected
  | Connecting (d : Descriptor) (budget : Nat)
  | Streaming (d : Descriptor)
  | Degraded (reason : String)
  | FallenBack (fromD : Descriptor)
deriving DecidableEq, Repr

/-- Modelled from the spec: run the `Connecting` phase of a switch for at
most `budget` ticks against an arrival schedule (§4.1). -/
def connectRun (d : Descriptor) : Nat → List Bool → SourceState
  | 0, _ => .FallenBack d
  | _ + 1, true :: _ => .Streaming d
  | b + 1, false :: rest => connectRun d b rest
  | b + 1, [] => connectRun d b []

/-- Modelled from the spec: the state `switchSource(d)` leaves the system in
once the bounded startup window (`window` ticks) has elapsed (§4.1). -/
def switchSource (d : Descriptor) (window : Nat) (arrivals : List Bool) : SourceState :=
  connectRun d window arrivals

/-! ## Probe (spec §4.1) -/

/-- The probe report returned to the caller: `{success, message,
resolution?}` (spec §6, probe endpoint). -/
structure ProbeReport where
  success : Bool
  message : String
  resolution : Option (Nat × Nat)
deriving DecidableEq, Repr

/-- The live backend pipeline state a probe must not touch: the Source
State, the shared frame slot, and the identity of the live Frame Acquirer
session (spec §4.1). -/
structure LiveState where
  source : SourceState
  slot : Option SlotFrame
  acquirerSession : Nat
deriving DecidableEq, Repr

/-- Modelled from the spec: `probe(descriptor)` opens a separate throwaway
session (`tryRead` abstracts its one bounded-timeout frame read, returning
the resolution on success), reports success or failure, and closes the
session; it never touches the live pipeline state (§4.1). -/
def probe (tryRead : Descriptor → Option (Nat × Nat)) (live : LiveState)
    (d : Descriptor) : LiveState × ProbeReport :=
  match tryRead d with
  | some res => (live, ⟨true, "Connection OK", some res⟩)
  | none => (live, ⟨false, "Connection failed", none⟩)

/-! ## Settings endpoints (spec §6)

Modelled from the spec: the GET summary and the POST identifier parsing of
the settings endpoint; the backend handler itself is not among the
available sources. -/

/-- The local-device token recognized by the settings endpoints; `"0"`
selects the default webcam (README: `"0" - Default webcam`). -/
def defaultDeviceToken : String := "0"

/-- Modelled from the spec: interpretation of a posted source identifier —
an empty string or the local-device token selects the default local device,
any other non-empty string is treated as a remote stream URI (§6). -/
def parseSourceIdentifier (s : String) : Descriptor :=
  if s = "" ∨ s = defaultDeviceToken then .LocalDevice defaultDeviceToken
  else .RemoteStream s

/-- Typed source errors (spec §4.1 failure semantics). -/
inductive SourceError where
  | Unreachable
  | Unsupported
  | Timeout
deriving DecidableEq, Repr

/-- Modelled from the spec: the settings POST response carries either the
resulting current source or a typed error (§6); `switchOutcome` is the
outcome of the serialized switch the handler performs. -/
def settingsPost (s : String) (switchOutcome : Option SourceError) :
    Except SourceError Descriptor :=
  match switchOutcome with
  | none => .ok (parseSourceIdentifier s)
  | some e => .error e

/-- Backend state summarized by the settings GET. -/
structure BackendState where
  source : Descriptor
  activeStreams : Nat
deriving DecidableEq, Repr

/-- The settings GET summary object (spec §6). -/
structure SettingsSummary where
  current_source : String
  active_stream_count : Nat
deriving DecidableEq, Repr

/-- Modelled from the spec: the settings GET returns the current Source
State summarized as `{current_source, active_stream_count}` (§6).  The
repository README documents the count field of the concrete JSON as
`active_streams`. -/
def settingsGet (st : BackendState) : SettingsSummary :=
  { current_source := st.source.identifier
    active_stream_count := st.activeStreams }

/-! ## Frontend (embedded from `frontend/src/App.js`) -/

/-- A JavaScript value, as far as the frontend's settings handling needs:
JSON numbers here are integers (the backend's device index). -/
inductive JSValue where
  | num (n : Int)
  | str (s : String)
  | bool (b : Bool)
  | null
deriving DecidableEq, Repr

/-- JavaScript strict equality (`===`) on the embedded values: never true
across types, structural within a type. -/
def jsStrictEq : JSValue → JSValue → Bool
  | .num a, .num b => a == b
  | .str a, .str b => a == b
  | .bool a, .bool b => a == b
  | .null, .null => true
  | _, _ => false

/-- The React state of `App` relevant to the source-settings flows
(`App.js` lines 86–89 plus `isPlaying` and the notification). -/
structure ClientState where
  rtspUrl : String
  currentSource : JSValue
  isPlaying : Bool
  testingConnection : Bool
  notification : Option (String × Bool)
deriving DecidableEq, Repr

/-- Outcome of the frontend's fetch to the probe endpoint
(`POST /test_connection`): a parsed JSON body or a network failure. -/
inductive ProbeFetchOutcome where
  | response (success : Bool) (message : String) (resolution : Option String)
  | networkError
deriving DecidableEq, Repr

/-- JavaScript `String.prototype.trim`: strip leading and trailing
whitespace (embedded executably over the character list). -/
def jsTrim (s : String) : String :=
  ⟨((s.data.dropWhile Char.isWhitespace).reverse.dropWhile
      Char.isWhitespace).reverse⟩

/-- `App.js` `testConnection` (lines 152–178): a guard rejects an input
whose trim is empty unless it is exactly `"0"`, showing an error
notification and issuing no request; otherwise the request is issued, the
notification reflects the response, and `testingConnection` is `false`
again after the `finally` clause.  Returns the new state and whether an
HTTP request was issued. -/
def testConnection (st : ClientState) (outcome : ProbeFetchOutcome) :
    ClientState × Bool :=
  if jsTrim st.rtspUrl = "" ∧ st.rtspUrl ≠ "0" then
    ({ st with
       notification := some ("Please enter a source URL or use \"0\" for webcam", false) },
     false)
  else
    match outcome with
    | .response true msg res =>
        ({ st with testingConnection := false,
                   notification := some ("✓ " ++ msg ++ " " ++ res.getD "", true) },
         true)
    | .response false msg _ =>
        ({ st with testingConnection := false,
                   notification := some (msg, false) },
         true)
    | .networkError =>
        ({ st with testingConnection := false,
                   notification := some ("Connection test failed", false) },
         true)

/-- `App.js` source display mapping (lines 114 and 136):
`source === 0 ? "Webcam" : source` under JavaScript strict equality. -/
def displaySource (v : JSValue) : JSValue :=
  if jsStrictEq v (.num 0) then .str "Webcam" else v

/-- `App.js` `fetchCurrentSettings` (lines 109–118): reads
`data.current_source` from the settings GET response and stores the display
mapping of it in the `currentSource` state. -/
def fetchCurrentSettings (st : ClientState) (current_source : JSValue) :
    ClientState :=
  { st with currentSource := displaySource current_source }

/-! ### Compositor lemmas -/

theorem getD_map_range {α : Type} (g : Nat → α) (n i : Nat) (d : α) :
    ((List.range n).map g).getD i d = if i < n then g i else d := by
  by_cases h : i < n
  · simp [List.getD_eq_getElem?_getD, List.getElem?_map, List.getElem?_range, h]
  · rw [List.getD_eq_getElem?_getD, List.getElem?_map, List.getElem?_eq_none]
    · simp [h]
    · simpa [List.length_range] using (by omega : n ≤ i)

theorem paint_pixAt (f : Frame) (r : Rect) (c : Nat → Nat → Nat) (x y : Nat)
    (hx : x < f.width) (hy : y < f.height) :
    (paint f r c).pixAt x y = if r.mem x y then c x y else f.pixAt x y := by
  unfold paint Frame.pixAt
  simp only [getD_map_range, hy, if_true]
  simp [getD_map_range, hx]

theorem drawOverlay_fetch_failed (env : RenderEnv) (f : Frame) (o : Overlay)
    (url : String) (hk : o.kind = .image url) (hf : env.fetch url = none) :
    drawOverlay env f o = f := by
  unfold drawOverlay
  rw [hk]
  simp [hf]

/-! ### Claim theorems: Frame Compositor -/

/-- Claim C5: for every captured frame, composing with the empty overlay
snapshot returns the frame unchanged (bit-identical before re-encoding) —
composition with zero overlays is the identity. -/
theorem compose_empty_snapshot_identity (env : RenderEnv) (f : Frame) :
    compose env f [] = f := rfl

/-- Claim C4: if fetching/decoding one overlay's image resource fails
(`env.fetch url = none`, an OverlayRenderError), `compose` skips exactly
that overlay and still succeeds: the result equals composing the same frame
with the remaining overlays, so every other overlay is still drawn and the
failure never surfaces as a pipeline failure (`compose` is total). -/
theorem compose_skips_failed_overlay (env : RenderEnv) (f : Frame)
    (os₁ os₂ : List Overlay) (o : Overlay) (url : String)
    (hk : o.kind = .image url) (hf : env.fetch url = none) :
    compose env f (os₁ ++ o :: os₂) = compose env f (os₁ ++ os₂) := by
  unfold compose
  rw [List.foldl_append, List.foldl_append, List.foldl_cons,
    drawOverlay_fetch_failed env _ o url hk hf]

/-- Witness for C4: a concrete two-overlay snapshot whose second overlay's
image URL is unreachable composes to the same frame as the snapshot without
it. -/
theorem compose_skips_failed_overlay_witness :
    compose ⟨fun _ => none, fun _ i j => i + j⟩ ⟨[[1, 2], [3, 4]]⟩
        ([⟨.text "LIVE", 0, 0, 2, 1⟩] ++
          ⟨.image "http://bad/logo.png", 0, 0, 1, 1⟩ :: []) =
      compose ⟨fun _ => none, fun _ i j => i + j⟩ ⟨[[1, 2], [3, 4]]⟩
        ([⟨.text "LIVE", 0, 0, 2, 1⟩] ++ []) :=
  compose_skips_failed_overlay ⟨fun _ => none, fun _ i j => i + j⟩
    ⟨[[1, 2], [3, 4]]⟩ [⟨.text "LIVE", 0, 0, 2, 1⟩] []
    ⟨.image "http://bad/logo.png", 0, 0, 1, 1⟩ "http://bad/logo.png" rfl rfl

/-- Claim C6: `compose` draws overlays in snapshot order — appending an
overlay draws it last, on top of everything drawn before (first conjunct);
each overlay only affects pixels inside its rectangle clamped to the frame
bounds, so out-of-bounds coordinates are clamped rather than rejected
(second conjunct); and inside the clamped rectangle an image overlay is
sampled with each axis scaled independently by the rectangle's own extent —
stretched to exactly fill the rectangle, aspect ratio not preserved (third
conjunct). -/
theorem compose_order_clamp_stretch :
    (∀ (env : RenderEnv) (f : Frame) (os : List Overlay) (o : Overlay),
        compose env f (os ++ [o]) = drawOverlay env (compose env f os) o) ∧
    (∀ (env : RenderEnv) (f : Frame) (o : Overlay) (x y : Nat),
        x < f.width → y < f.height → (clampRect f o).mem x y = false →
        (drawOverlay env f o).pixAt x y = f.pixAt x y) ∧
    (∀ (env : RenderEnv) (f : Frame) (o : Overlay) (url : String)
        (img : Frame) (x y : Nat),
        o.kind = .image url → env.fetch url = some img →
        x < f.width → y < f.height → (clampRect f o).mem x y = true →
        (drawOverlay env f o).pixAt x y = stretchSample img o x y) := by
  refine ⟨fun env f os o => ?_, fun env f o x y hx hy hmem => ?_,
    fun env f o url img x y hk hf hx hy hmem => ?_⟩
  · unfold compose
    rw [List.foldl_append, List.foldl_cons, List.foldl_nil]
  · unfold drawOverlay
    cases h : o.kind with
    | text s =>
      show (paint f (clampRect f o) fun px py =>
          env.raster s (((px : Int) - o.x).toNat) (((py : Int) - o.y).toNat)).pixAt x y
        = f.pixAt x y
      rw [paint_pixAt f _ _ x y hx hy, hmem]
      simp
    | image url =>
      show (match env.fetch url with
          | none => f
          | some img => paint f (clampRect f o) (stretchSample img o)).pixAt x y
        = f.pixAt x y
      cases hf : env.fetch url with
      | none => rfl
      | some img =>
        show (paint f (clampRect f o) (stretchSample img o)).pixAt x y = f.pixAt x y
        rw [paint_pixAt f _ _ x y hx hy, hmem]
        simp
  · unfold drawOverlay
    rw [hk]
    show (match env.fetch url with
        | none => f
        | some img => paint f (clampRect f o) (stretchSample img o)).pixAt x y
      = stretchSample img o x y
    rw [hf]
    show (paint f (clampRect f o) (stretchSample img o)).pixAt x y = stretchSample img o x y
    rw [paint_pixAt f _ _ x y hx hy, hmem]
    simp

/-- Witness for C6: concrete instantiations of the three conjuncts — the
append/draw-last equation at a two-overlay snapshot; a pixel outside the
clamped rectangle of an overlay with negative `x` left unchanged; and a
pixel inside the clamped rectangle of that same negatively-positioned image
overlay taking the stretched sample (the overlay is clamped, not
rejected). -/
theorem compose_order_clamp_stretch_witness :
    (compose ⟨fun _ => some ⟨[[9]]⟩, fun _ i j => i * 10 + j⟩ ⟨[[1, 2], [3, 4]]⟩
        ([⟨.text "LIVE", 0, 0, 2, 1⟩] ++ [⟨.image "u", -1, 0, 2, 2⟩]) =
      drawOverlay ⟨fun _ => some ⟨[[9]]⟩, fun _ i j => i * 10 + j⟩
        (compose ⟨fun _ => some ⟨[[9]]⟩, fun _ i j => i * 10 + j⟩
          ⟨[[1, 2], [3, 4]]⟩ [⟨.text "LIVE", 0, 0, 2, 1⟩])
        ⟨.image "u", -1, 0, 2, 2⟩) ∧
    ((drawOverlay ⟨fun _ => some ⟨[[9]]⟩, fun _ i j => i * 10 + j⟩
        ⟨[[1, 2], [3, 4]]⟩ ⟨.image "u", -1, 0, 2, 2⟩).pixAt 1 0 =
      Frame.pixAt ⟨[[1, 2], [3, 4]]⟩ 1 0) ∧
    ((drawOverlay ⟨fun _ => some ⟨[[9]]⟩, fun _ i j => i * 10 + j⟩
        ⟨[[1, 2], [3, 4]]⟩ ⟨.image "u", -1, 0, 2, 2⟩).pixAt 0 1 =
      stretchSample ⟨[[9]]⟩ ⟨.image "u", -1, 0, 2, 2⟩ 0 1) :=
  ⟨compose_order_clamp_stretch.1 ⟨fun _ => some ⟨[[9]]⟩, fun _ i j => i * 10 + j⟩
      ⟨[[1, 2], [3, 4]]⟩ [⟨.text "LIVE", 0, 0, 2, 1⟩] ⟨.image "u", -1, 0, 2, 2⟩,
    compose_order_clamp_stretch.2.1 ⟨fun _ => some ⟨[[9]]⟩, fun _ i j => i * 10 + j⟩
      ⟨[[1, 2], [3, 4]]⟩ ⟨.image "u", -1, 0, 2, 2⟩ 1 0 (by decide) (by decide)
      (by decide),
    compose_order_clamp_stretch.2.2 ⟨fun _ => some ⟨[[9]]⟩, fun _ i j => i * 10 + j⟩
      ⟨[[1, 2], [3, 4]]⟩ ⟨.image "u", -1, 0, 2, 2⟩ "u" ⟨[[9]]⟩ 0 1 rfl rfl
      (by decide) (by decide) (by decide)⟩

/-! ### Multipart Streamer lemmas -/

theorem viewerSends_mem :
    ∀ (obs : List SlotFrame) (last : Option Nat) (s : SlotFrame),
      s ∈ viewerSends last obs → s ∈ obs := by
  intro obs
  induction obs with
  | nil => intro last s h; simp [viewerSends] at h
  | cons a rest ih =>
    intro last s h
    unfold viewerSends at h
    by_cases hc : last = some a.seq
    · rw [if_pos hc] at h
      exact List.mem_cons_of_mem a (ih last s h)
    · rw [if_neg hc] at h
      rcases List.mem_cons.mp h with rfl | h
      · exact List.mem_cons_self _ _
      · exact List.mem_cons_of_mem a (ih (some a.seq) s h)

theorem viewerSends_chain_some :
    ∀ (obs : List SlotFrame) (n : Nat),
      List.Chain' (fun a b => a.seq ≤ b.seq) obs →
      (∀ s ∈ obs.head?, n ≤ s.seq) →
      List.Chain' (fun a b => a.seq < b.seq) (viewerSends (some n) obs) ∧
      (∀ s ∈ (viewerSends (some n) obs).head?, n < s.seq) := by
  intro obs
  induction obs with
  | nil => intro n _ _; exact ⟨List.chain'_nil, by simp [viewerSends]⟩
  | cons a rest ih =>
    intro n hchain hhead
    have hna : n ≤ a.seq := hhead a rfl
    rw [List.chain'_cons'] at hchain
    obtain ⟨hrel, hchain_rest⟩ := hchain
    unfold viewerSends
    by_cases hc : (some n : Option Nat) = some a.seq
    · have hn : n = a.seq := by injection hc
      rw [if_pos hc]
      apply ih n hchain_rest
      intro s hs
      rw [hn]
      exact hrel s hs
    · rw [if_neg hc]
      have hlt : n < a.seq := lt_of_le_of_ne hna (fun h => hc (congrArg some h))
      obtain ⟨ch, hd⟩ := ih a.seq hchain_rest hrel
      refine ⟨?_, ?_⟩
      · rw [List.chain'_cons']
        exact ⟨hd, ch⟩
      · intro s hs
        have : a = s := by injection hs
        rw [← this]
        exact hlt

/-! ### Claim theorems: Multipart Streamer -/

/-- Claim C1: for every viewer and every run, the frames the viewer's loop
sends are in strictly increasing (hence non-decreasing, duplicate-free)
sequence-number order, and every sent frame is one of the completely
published slot states — never a torn/partially written frame.  `published`
is the set of complete frames the acquirer published; `obs` is the
time-ordered list of slot states the viewer's ticks observed, which is
chain-monotone because the slot's sequence number only increases and
contained in `published` because publication is atomic (spec §3 slot
invariant, §4.4, §5). -/
theorem viewer_stream_ordered (published obs : List SlotFrame)
    (hmono : List.Chain' (fun a b => a.seq ≤ b.seq) obs)
    (hobs : ∀ s ∈ obs, s ∈ published) :
    List.Chain' (fun a b => a.seq < b.seq) (viewerSends none obs) ∧
    (∀ s ∈ viewerSends none obs, s ∈ published) := by
  constructor
  · cases obs with
    | nil => exact List.chain'_nil
    | cons a rest =>
      rw [List.chain'_cons'] at hmono
      unfold viewerSends
      rw [if_neg (by simp), List.chain'_cons']
      exact ⟨(viewerSends_chain_some rest a.seq hmono.2 hmono.1).2,
             (viewerSends_chain_some rest a.seq hmono.2 hmono.1).1⟩
  · intro s hs
    exact hobs s (viewerSends_mem obs none s hs)

/-- Witness for C1: a concrete observation run with a stalled slot
(sequence numbers 1, 1, 2, 3, 3) yields a strictly increasing send order
drawn from the published frames. -/
theorem viewer_stream_ordered_witness :
    List.Chain' (fun a b => a.seq < b.seq)
      (viewerSends none
        [⟨1, ⟨[[5]]⟩⟩, ⟨1, ⟨[[5]]⟩⟩, ⟨2, ⟨[[6]]⟩⟩, ⟨3, ⟨[[7]]⟩⟩, ⟨3, ⟨[[7]]⟩⟩]) ∧
    (∀ s ∈ viewerSends none
        [⟨1, ⟨[[5]]⟩⟩, ⟨1, ⟨[[5]]⟩⟩, ⟨2, ⟨[[6]]⟩⟩, ⟨3, ⟨[[7]]⟩⟩, ⟨3, ⟨[[7]]⟩⟩],
      s ∈ [⟨1, ⟨[[5]]⟩⟩, ⟨2, ⟨[[6]]⟩⟩, ⟨3, ⟨[[7]]⟩⟩]) :=
  viewer_stream_ordered [⟨1, ⟨[[5]]⟩⟩, ⟨2, ⟨[[6]]⟩⟩, ⟨3, ⟨[[7]]⟩⟩]
    [⟨1, ⟨[[5]]⟩⟩, ⟨1, ⟨[[5]]⟩⟩, ⟨2, ⟨[[6]]⟩⟩, ⟨3, ⟨[[7]]⟩⟩, ⟨3, ⟨[[7]]⟩⟩]
    (by simp [List.chain'_cons, List.chain'_singleton]) (by decide)

/-! ### Claim theorems: Source Controller -/

/-- Claim C2: for every descriptor, startup window and arrival schedule,
`switchSource` leaves the Source State in exactly one of
`Streaming(newDescriptor)` or `FallenBack` once the bounded startup window
has elapsed — it is never left in `Connecting`. -/
theorem switchSource_terminal_state (d : Descriptor) (window : Nat)
    (arrivals : List Bool) :
    (switchSource d window arrivals = .Streaming d ∨
      switchSource d window arrivals = .FallenBack d) ∧
    (∀ (d' : Descriptor) (b : Nat),
      switchSource d window arrivals ≠ .Connecting d' b) := by
  unfold switchSource
  induction window generalizing arrivals with
  | zero => exact ⟨Or.inr rfl, by simp [connectRun]⟩
  | succ b ih =>
    cases arrivals with
    | nil => simpa [connectRun] using ih []
    | cons hd tl =>
      cases hd with
      | true => exact ⟨Or.inl rfl, by simp [connectRun]⟩
      | false => simpa [connectRun] using ih tl

/-- Witness for C2: an unreachable remote source that never produces a
frame ends the three-tick window in `FallenBack`, not `Connecting`, and the
terminal-state disjunction holds there. -/
theorem switchSource_terminal_state_witness :
    (switchSource (.RemoteStream "rtsp://unreachable/stream") 3 [] =
        .Streaming (.RemoteStream "rtsp://unreachable/stream") ∨
      switchSource (.RemoteStream "rtsp://unreachable/stream") 3 [] =
        .FallenBack (.RemoteStream "rtsp://unreachable/stream")) ∧
    switchSource (.RemoteStream "rtsp://unreachable/stream") 3 [] ≠
      .Connecting (.RemoteStream "rtsp://unreachable/stream") 0 :=
  ⟨(switchSource_terminal_state (.RemoteStream "rtsp://unreachable/stream") 3 []).1,
   (switchSource_terminal_state (.RemoteStream "rtsp://unreachable/stream") 3 []).2
     (.RemoteStream "rtsp://unreachable/stream") 0⟩

/-! ### Claim theorems: probe -/

/-- Claim C3: for every descriptor, `probe` leaves the entire live pipeline
state — Source State, shared frame slot, live Frame Acquirer session —
unchanged, and returns a `{success, message, resolution?}` report whose
success and resolution reflect only the throwaway session's read; likewise
the frontend `testConnection` never alters the current source or the
playback state, whatever the probe request's outcome. -/
theorem probe_side_effect_free :
    (∀ (tryRead : Descriptor → Option (Nat × Nat)) (live : LiveState)
        (d : Descriptor), (probe tryRead live d).1 = live) ∧
    (∀ (tryRead : Descriptor → Option (Nat × Nat)) (live : LiveState)
        (d : Descriptor),
        (probe tryRead live d).2.success = (tryRead d).isSome ∧
        (probe tryRead live d).2.resolution = tryRead d) ∧
    (∀ (st : ClientState) (outcome : ProbeFetchOutcome),
        (testConnection st outcome).1.currentSource = st.currentSource ∧
        (testConnection st outcome).1.isPlaying = st.isPlaying ∧
        (testConnection st outcome).1.rtspUrl = st.rtspUrl) := by
  refine ⟨fun tr live d => ?_, fun tr live d => ?_, fun st outcome => ?_⟩
  · unfold probe
    cases tr d <;> rfl
  · unfold probe
    cases h : tr d <;> simp [h]
  · unfold testConnection
    by_cases hg : jsTrim st.rtspUrl = "" ∧ st.rtspUrl ≠ "0"
    · rw [if_pos hg]
      exact ⟨rfl, rfl, rfl⟩
    · rw [if_neg hg]
      cases outcome with
      | response success msg res => cases success <;> exact ⟨rfl, rfl, rfl⟩
      | networkError => exact ⟨rfl, rfl, rfl⟩

/-! ### Claim theorems: settings endpoints -/

/-- Claim C7: a posted source identifier that is empty or the local-device
token `"0"` selects the default local device; any other non-empty string is
treated as a remote stream URI; and the settings POST response is either
the resulting current source or a typed error. -/
theorem settings_post_identifier (s : String) (outcome : Option SourceError) :
    ((s = "" ∨ s = defaultDeviceToken) →
      parseSourceIdentifier s = .LocalDevice defaultDeviceToken) ∧
    (s ≠ "" → s ≠ defaultDeviceToken → parseSourceIdentifier s = .RemoteStream s) ∧
    (settingsPost s outcome = .ok (parseSourceIdentifier s) ∨
      ∃ e : SourceError, settingsPost s outcome = .error e) := by
  refine ⟨fun h => ?_, fun h1 h2 => ?_, ?_⟩
  · unfold parseSourceIdentifier
    rw [if_pos h]
  · unfold parseSourceIdentifier
    rw [if_neg (by tauto)]
  · cases outcome with
    | none => exact Or.inl rfl
    | some e => exact Or.inr ⟨e, rfl⟩

/-- Witness for C7: the empty identifier and `"0"` both select the default
local device and an RTSP URI becomes a remote-stream descriptor. -/
theorem settings_post_identifier_witness :
    parseSourceIdentifier "" = .LocalDevice defaultDeviceToken ∧
    parseSourceIdentifier "0" = .LocalDevice defaultDeviceToken ∧
    parseSourceIdentifier "rtsp://192.168.1.100:554/stream" =
      .RemoteStream "rtsp://192.168.1.100:554/stream" :=
  ⟨(settings_post_identifier "" none).1 (Or.inl rfl),
   (settings_post_identifier "0" none).1 (Or.inr rfl),
   (settings_post_identifier "rtsp://192.168.1.100:554/stream" none).2.1
     (by decide) (by decide)⟩

/-- Claim C8: the settings GET summarizes the current Source State as an
object with fields `current_source` and `active_stream_count`, carrying the
current source's identifier and the number of active viewer streams. -/
theorem settings_get_summary (st : BackendState) :
    (settingsGet st).current_source = st.source.identifier ∧
    (settingsGet st).active_stream_count = st.activeStreams :=
  ⟨rfl, rfl⟩

/-! ### Claim theorems: frontend -/

/-- Claim C9: when the entered source string trims to empty and is not
exactly `"0"`, the frontend `testConnection` issues no HTTP request to the
probe endpoint, shows the error notification, and leaves the
`testingConnection` flag unchanged (so still `false` when it was
`false`). -/
theorem testConnection_guard (st : ClientState) (outcome : ProbeFetchOutcome)
    (h1 : jsTrim st.rtspUrl = "") (h2 : st.rtspUrl ≠ "0") :
    (testConnection st outcome).2 = false ∧
    (testConnection st outcome).1.notification =
      some ("Please enter a source URL or use \"0\" for webcam", false) ∧
    (testConnection st outcome).1.testingConnection = st.testingConnection ∧
    (st.testingConnection = false →
      (testConnection st outcome).1.testingConnection = false) := by
  unfold testConnection
  rw [if_pos ⟨h1, h2⟩]
  exact ⟨rfl, rfl, rfl, fun h => h⟩

/-- Witness for C9: a whitespace-only input is rejected locally — no
request, an error notification, and the flag stays `false`. -/
theorem testConnection_guard_witness :
    (testConnection ⟨"   ", .str "Webcam", false, false, none⟩ .networkError).2
        = false ∧
    (testConnection ⟨"   ", .str "Webcam", false, false, none⟩
          .networkError).1.notification =
        some ("Please enter a source URL or use \"0\" for webcam", false) ∧
    (testConnection ⟨"   ", .str "Webcam", false, false, none⟩
          .networkError).1.testingConnection =
        ClientState.testingConnection ⟨"   ", .str "Webcam", false, false, none⟩ ∧
    (ClientState.testingConnection ⟨"   ", .str "Webcam", false, false, none⟩
          = false →
      (testConnection ⟨"   ", .str "Webcam", false, false, none⟩
            .networkError).1.testingConnection = false) :=
  testConnection_guard ⟨"   ", .str "Webcam", false, false, none⟩ .networkError
    (by decide) (by decide)

theorem jsStrictEq_num_zero (v : JSValue) :
    jsStrictEq v (.num 0) = true ↔ v = .num 0 := by
  cases v <;> simp [jsStrictEq]

/-- Claim C10: the frontend stores the display value `"Webcam"` exactly when
the settings response's `current_source` is the number `0` under JavaScript
strict equality; any other value — including the string `"0"` — is stored
verbatim. -/
theorem displaySource_strict_zero :
    (∀ st : ClientState,
      (fetchCurrentSettings st (.num 0)).currentSource = .str "Webcam") ∧
    (∀ (st : ClientState) (v : JSValue), v ≠ .num 0 →
      (fetchCurrentSettings st v).currentSource = v) ∧
    displaySource (.str "0") = .str "0" := by
  refine ⟨fun st => rfl, fun st v hv => ?_, rfl⟩
  unfold fetchCurrentSettings displaySource
  rw [if_neg (fun h => hv ((jsStrictEq_num_zero v).mp h))]

/-- Witness for C10: a settings response whose `current_source` is the
string `"0"` is stored verbatim, not replaced with `"Webcam"`. -/
theorem displaySource_strict_zero_witness :
    (fetchCurrentSettings ⟨"", .str "Webcam", false, false, none⟩
        (.str "0")).currentSource = .str "0" :=
  displaySource_strict_zero.2.1 ⟨"", .str "Webcam", false, false, none⟩
    (.str "0") (by decide)

end RtspOverlay
